import Mathlib

/-!
Shallow embedding of `src/webapp/backend/src/domains/auth_service.rs`.

The Rust service is an `AuthService<T: AuthRepository>` whose methods are
async functions returning `Result<_, AppError>`.  We embed:

* the repository trait as a record of state-threading functions
  (`σ` is the repository's abstract storage state; reads leave it
  unchanged, writes return the successor state);
* `Result<_, AppError>` as `Except AppError _`;
* each service method as a pure function that, besides the method's
  outcome, returns the updated repository state and the ordered trace of
  external calls it performed (used to state the "no side effect" claims);
* a Rust panic (`.unwrap()` on `None`) as the distinguished outcome
  `Outcome.crashed`, which is not an `AppError` return;
* the credential utilities (`hash_password`, `verify_password`,
  `generate_session_token`) as explicit functional parameters, per the
  spec's "external deterministic/cryptographic primitives";
* the `image` crate calls (`open`, `resize_exact`, `write_to` with PNG) as
  an abstract `ImageLib` record, with decode/encode failure as `none`;
* the Rust cast `width as u32` on an `i32` as `i32AsU32` (two's-complement
  wrapping, i.e. reduction modulo 2^32 of the signed value).
-/

namespace AuthSpec

/-- The error taxonomy of `AppError` (spec section 7); the enum itself lives in
`src/errors.rs`, and these are exactly the variants `auth_service.rs` uses. -/
inductive AppError where
  | badRequest
  | conflict
  | unauthorized
  | notFound
  | internalServerError
  deriving DecidableEq, Repr

/-- `models::user::User` — fields as used by `auth_service.rs` and listed in
spec section 3: id, username, password (hash at rest), role. -/
structure User where
  id : Int
  username : String
  password : String
  role : String
  deriving DecidableEq, Repr

/-- `models::user::Dispatcher` — id, owning user id, assigned area id. -/
structure Dispatcher where
  id : Int
  user_id : Int
  area_id : Int
  deriving DecidableEq, Repr

/-- `models::user::Session` — session token, owning user id, validity flag. -/
structure Session where
  session_token : String
  user_id : Int
  is_valid : Bool
  deriving DecidableEq, Repr

/-- `dto::auth::LoginResponseDto` as constructed by `register_user` and
`login_user`. -/
structure LoginResponseDto where
  user_id : Int
  username : String
  session_token : String
  role : String
  dispatcher_id : Option Int
  area_id : Option Int
  deriving DecidableEq, Repr

/-- Outcome of a service method: a returned value, a returned `AppError`,
or a Rust panic (`crashed`), which is not an error return. -/
inductive Outcome (α : Type) where
  | ok : α → Outcome α
  | err : AppError → Outcome α
  | crashed : Outcome α
  deriving DecidableEq, Repr

/-- One external call performed by a service method, in program order.
Repository calls carry their arguments; utility calls likewise. -/
inductive Event where
  | findUserByUsername (username : String)
  | hashPasswordCall (password : String)
  | verifyPasswordCall
  | createUser (username password role : String)
  | createSession (user_id : Int) (token : String)
  | createDispatcher (user_id : Int) (area_id : Int)
  | findDispatcherByUserId (user_id : Int)
  | findProfileImageName (user_id : Int)
  | deleteSession (token : String)
  | findSessionByToken (token : String)
  | openImage (path : String)
  | resizeExact (w : Nat) (h : Nat)
  | writeToPng
  deriving DecidableEq, Repr

/-- The `AuthRepository` trait: each method either fails with an `AppError`
or returns its value; writes additionally return the successor storage
state `σ`, reads leave the state unchanged. -/
structure AuthRepository (σ : Type) where
  create_user : σ → String → String → String → Except AppError σ
  find_user_by_id : σ → Int → Except AppError (Option User)
  find_user_by_username : σ → String → Except AppError (Option User)
  create_dispatcher : σ → Int → Int → Except AppError σ
  find_dispatcher_by_id : σ → Int → Except AppError (Option Dispatcher)
  find_dispatcher_by_user_id : σ → Int → Except AppError (Option Dispatcher)
  find_profile_image_name_by_user_id : σ → Int → Except AppError (Option String)
  create_session : σ → Int → String → Except AppError σ
  delete_session : σ → String → Except AppError σ
  find_session_by_session_token : σ → String → Except AppError Session

/-- `AuthService::register_user`.  `hashP` embeds `hash_password` (total:
the spec treats it as an external deterministic primitive), `tok` the value
produced by `generate_session_token()`.  The username lookup and the hash
are issued concurrently (`try_join!`), so on the Conflict path the hash has
already been computed and is discarded: both events are in the trace before
the conflict check.  `area.unwrap()` and the `.unwrap()` on the dispatcher
re-read panic on `None`, embedded as `Outcome.crashed`. -/
def register_user {σ : Type} (repo : AuthRepository σ) (hashP : String → String)
    (tok : String) (s : σ) (username password role : String) (area : Option Int) :
    Outcome LoginResponseDto × σ × List Event :=
  if role = "dispatcher" ∧ area = none then
    (.err .badRequest, s, [])
  else
    match repo.find_user_by_username s username with
    | .error e =>
        (.err e, s, [.findUserByUsername username, .hashPasswordCall password])
    | .ok user_result =>
        if user_result.isSome then
          (.err .conflict, s,
            [.findUserByUsername username, .hashPasswordCall password])
        else
          match repo.create_user s username (hashP password) role with
          | .error e =>
              (.err e, s,
                [.findUserByUsername username, .hashPasswordCall password,
                 .createUser username (hashP password) role])
          | .ok s1 =>
              match repo.find_user_by_username s1 username with
              | .error e =>
                  (.err e, s1,
                    [.findUserByUsername username, .hashPasswordCall password,
                     .createUser username (hashP password) role,
                     .findUserByUsername username])
              | .ok none =>
                  (.err .internalServerError, s1,
                    [.findUserByUsername username, .hashPasswordCall password,
                     .createUser username (hashP password) role,
                     .findUserByUsername username])
              | .ok (some user) =>
                  match repo.create_session s1 user.id tok with
                  | .error e =>
                      (.err e, s1,
                        [.findUserByUsername username, .hashPasswordCall password,
                         .createUser username (hashP password) role,
                         .findUserByUsername username,
                         .createSession user.id tok])
                  | .ok s2 =>
                      if user.role = "dispatcher" then
                        match area with
                        | none =>
                            -- `area.unwrap()` on `None` panics
                            (.crashed, s2,
                              [.findUserByUsername username, .hashPasswordCall password,
                               .createUser username (hashP password) role,
                               .findUserByUsername username,
                               .createSession user.id tok])
                        | some a =>
                            match repo.create_dispatcher s2 user.id a with
                            | .error e =>
                                (.err e, s2,
                                  [.findUserByUsername username, .hashPasswordCall password,
                                   .createUser username (hashP password) role,
                                   .findUserByUsername username,
                                   .createSession user.id tok,
                                   .createDispatcher user.id a])
                            | .ok s3 =>
                                match repo.find_dispatcher_by_user_id s3 user.id with
                                | .error e =>
                                    (.err e, s3,
                                      [.findUserByUsername username, .hashPasswordCall password,
                                       .createUser username (hashP password) role,
                                       .findUserByUsername username,
                                       .createSession user.id tok,
                                       .createDispatcher user.id a,
                                       .findDispatcherByUserId user.id])
                                | .ok none =>
                                    -- `find_dispatcher_by_user_id(..).await?.unwrap()` panics
                                    (.crashed, s3,
                                      [.findUserByUsername username, .hashPasswordCall password,
                                       .createUser username (hashP password) role,
                                       .findUserByUsername username,
                                       .createSession user.id tok,
                                       .createDispatcher user.id a,
                                       .findDispatcherByUserId user.id])
                                | .ok (some dispatcher) =>
                                    (.ok { user_id := user.id, username := user.username,
                                           session_token := tok, role := user.role,
                                           dispatcher_id := some dispatcher.id,
                                           area_id := some dispatcher.area_id }, s3,
                                      [.findUserByUsername username, .hashPasswordCall password,
                                       .createUser username (hashP password) role,
                                       .findUserByUsername username,
                                       .createSession user.id tok,
                                       .createDispatcher user.id a,
                                       .findDispatcherByUserId user.id])
                      else
                        (.ok { user_id := user.id, username := user.username,
                               session_token := tok, role := user.role,
                               dispatcher_id := none, area_id := none }, s2,
                          [.findUserByUsername username, .hashPasswordCall password,
                           .createUser username (hashP password) role,
                           .findUserByUsername username,
                           .createSession user.id tok])

/-- `AuthService::login_user`.  `verifyP hash password` embeds
`verify_password(&user.password, password)` (total external primitive). -/
def login_user {σ : Type} (repo : AuthRepository σ) (verifyP : String → String → Bool)
    (tok : String) (s : σ) (username password : String) :
    Outcome LoginResponseDto × σ × List Event :=
  match repo.find_user_by_username s username with
  | .error e => (.err e, s, [.findUserByUsername username])
  | .ok none => (.err .unauthorized, s, [.findUserByUsername username])
  | .ok (some user) =>
      if verifyP user.password password then
        match repo.create_session s user.id tok with
        | .error e =>
            (.err e, s,
              [.findUserByUsername username, .verifyPasswordCall,
               .createSession user.id tok])
        | .ok s1 =>
            if user.role = "dispatcher" then
              match repo.find_dispatcher_by_user_id s1 user.id with
              | .error e =>
                  (.err e, s1,
                    [.findUserByUsername username, .verifyPasswordCall,
                     .createSession user.id tok, .findDispatcherByUserId user.id])
              | .ok none =>
                  (.err .internalServerError, s1,
                    [.findUserByUsername username, .verifyPasswordCall,
                     .createSession user.id tok, .findDispatcherByUserId user.id])
              | .ok (some dispatcher) =>
                  (.ok { user_id := user.id, username := user.username,
                         session_token := tok, role := user.role,
                         dispatcher_id := some dispatcher.id,
                         area_id := some dispatcher.area_id }, s1,
                    [.findUserByUsername username, .verifyPasswordCall,
                     .createSession user.id tok, .findDispatcherByUserId user.id])
            else
              (.ok { user_id := user.id, username := user.username,
                     session_token := tok, role := user.role,
                     dispatcher_id := none, area_id := none }, s1,
                [.findUserByUsername username, .verifyPasswordCall,
                 .createSession user.id tok])
      else
        (.err .unauthorized, s, [.findUserByUsername username, .verifyPasswordCall])

/-- `AuthService::logout_user`: delete the session, propagate any error. -/
def logout_user {σ : Type} (repo : AuthRepository σ) (s : σ) (session_token : String) :
    Outcome Unit × σ × List Event :=
  match repo.delete_session s session_token with
  | .error e => (.err e, s, [.deleteSession session_token])
  | .ok s1 => (.ok (), s1, [.deleteSession session_token])

/-- `AuthService::validate_session`: look the session up by token and return
its validity flag verbatim; a repository failure is propagated via `?`. -/
def validate_session {σ : Type} (repo : AuthRepository σ) (s : σ) (session_token : String) :
    Outcome Bool × List Event :=
  match repo.find_session_by_session_token s session_token with
  | .error e => (.err e, [.findSessionByToken session_token])
  | .ok session => (.ok session.is_valid, [.findSessionByToken session_token])

/-- The Rust cast `w as u32` applied to an `i32` value: two's-complement
wrapping, i.e. the signed value reduced modulo 2^32 (`Int.emod` is
nonnegative for a positive modulus, so `toNat` is faithful). -/
def i32AsU32 (w : Int) : Nat := (w % (2 ^ 32 : Int)).toNat

/-- The `image` crate surface used by `get_resized_profile_image_byte`:
`image::open` (decode failure ↦ `none`), `DynamicImage::resize_exact`
(total), `write_to(.., ImageOutputFormat::Png)` (encode failure ↦ `none`,
success ↦ the PNG byte buffer). -/
structure ImageLib (Img : Type) where
  openImage : String → Option Img
  resize_exact : Img → Nat → Nat → Img
  writeToPng : Img → Option (List Nat)

/-- `AuthService::get_resized_profile_image_byte`.  The filename lookup's
`Ok(None)` and `Err(_)` arms both return `NotFound`; the path is
`images/user_profile/` joined with the stored filename; decode/encode
failures return `InternalServerError`; the requested `i32` dimensions are
cast to `u32` before `resize_exact`. -/
def get_resized_profile_image_byte {σ Img : Type} (repo : AuthRepository σ)
    (lib : ImageLib Img) (s : σ) (user_id width height : Int) :
    Outcome (List Nat) × List Event :=
  match repo.find_profile_image_name_by_user_id s user_id with
  | .ok (some name) =>
      match lib.openImage ("images/user_profile/" ++ name) with
      | none =>
          (.err .internalServerError,
            [.findProfileImageName user_id,
             .openImage ("images/user_profile/" ++ name)])
      | some img =>
          match lib.writeToPng (lib.resize_exact img (i32AsU32 width) (i32AsU32 height)) with
          | none =>
              (.err .internalServerError,
                [.findProfileImageName user_id,
                 .openImage ("images/user_profile/" ++ name),
                 .resizeExact (i32AsU32 width) (i32AsU32 height),
                 .writeToPng])
          | some buffer =>
              (.ok buffer,
                [.findProfileImageName user_id,
                 .openImage ("images/user_profile/" ++ name),
                 .resizeExact (i32AsU32 width) (i32AsU32 height),
                 .writeToPng])
  | .ok none => (.err .notFound, [.findProfileImageName user_id])
  | .error _ => (.err .notFound, [.findProfileImageName user_id])

/-- Modelled from the spec: the storage state of the repository
implementation, which lives outside `src/` (only the `AuthRepository` trait
is in `src/`).  Spec section 3 lists the persistent records: users,
dispatchers, sessions, and per-user profile-image references. -/
structure Store where
  users : List User
  dispatchers : List Dispatcher
  sessions : List Session
  profile_images : List (Int × String)
  deriving DecidableEq, Repr

/-- Modelled from the spec: the repository implementation (absent from
`src/`), per spec section 6 — each operation returns the requested value,
an absence indicator, or a storage error.  Creates append a row with the
next id; `delete_session` removes the rows matching the token;
`find_session_by_session_token` has no absence indicator in the trait, so a
missing token is a repository-level failure (spec section 4.4, "not-found
failure"). -/
def specRepo : AuthRepository Store where
  create_user := fun s u p r =>
    .ok { s with users :=
      s.users ++ [{ id := Int.ofNat s.users.length + 1, username := u,
                    password := p, role := r }] }
  find_user_by_id := fun s i => .ok (s.users.find? (fun x => x.id == i))
  find_user_by_username := fun s u => .ok (s.users.find? (fun x => x.username == u))
  create_dispatcher := fun s uid aid =>
    .ok { s with dispatchers :=
      s.dispatchers ++ [{ id := Int.ofNat s.dispatchers.length + 1,
                          user_id := uid, area_id := aid }] }
  find_dispatcher_by_id := fun s i => .ok (s.dispatchers.find? (fun x => x.id == i))
  find_dispatcher_by_user_id := fun s uid =>
    .ok (s.dispatchers.find? (fun x => x.user_id == uid))
  find_profile_image_name_by_user_id := fun s uid =>
    .ok ((s.profile_images.find? (fun x => x.1 == uid)).map (fun x => x.2))
  create_session := fun s uid tok =>
    .ok { s with sessions :=
      s.sessions ++ [{ session_token := tok, user_id := uid, is_valid := true }] }
  delete_session := fun s tok =>
    .ok { s with sessions := s.sessions.filter (fun x => x.session_token != tok) }
  find_session_by_session_token := fun s tok =>
    match s.sessions.find? (fun x => x.session_token == tok) with
    | some session => .ok session
    | none => .error .notFound

/-- A dispatcher-role user row used by concrete instantiations. -/
def bobUser : User :=
  { id := 1, username := "bob", password := "pw", role := "dispatcher" }

/-- A repository behavior whose dispatcher table is empty: the state `Bool`
records whether `create_user` has run, so the username lookup finds nothing
before creation and finds `bobUser` after it, while
`find_dispatcher_by_user_id` always reports absence. -/
def noDispatcherRepo : AuthRepository Bool where
  create_user := fun _ _ _ _ => .ok true
  find_user_by_id := fun _ _ => .ok none
  find_user_by_username := fun created _ =>
    .ok (if created then some bobUser else none)
  create_dispatcher := fun s _ _ => .ok s
  find_dispatcher_by_id := fun _ _ => .ok none
  find_dispatcher_by_user_id := fun _ _ => .ok none
  find_profile_image_name_by_user_id := fun _ _ => .ok none
  create_session := fun s _ _ => .ok s
  delete_session := fun s _ => .ok s
  find_session_by_session_token := fun _ _ => .error .notFound

/-- A repository behavior in which every operation fails with a storage
error (`InternalServerError`), used to exercise error-propagation paths. -/
def failRepo : AuthRepository Unit where
  create_user := fun _ _ _ _ => .error .internalServerError
  find_user_by_id := fun _ _ => .error .internalServerError
  find_user_by_username := fun _ _ => .error .internalServerError
  create_dispatcher := fun _ _ _ => .error .internalServerError
  find_dispatcher_by_id := fun _ _ => .error .internalServerError
  find_dispatcher_by_user_id := fun _ _ => .error .internalServerError
  find_profile_image_name_by_user_id := fun _ _ => .error .internalServerError
  create_session := fun _ _ _ => .error .internalServerError
  delete_session := fun _ _ => .error .internalServerError
  find_session_by_session_token := fun _ _ => .error .internalServerError

/-- A trivial decoded-image type for concrete instantiations: decode and
encode always succeed, the encoded buffer is empty. -/
def unitImageLib : ImageLib Unit where
  openImage := fun _ => some ()
  resize_exact := fun _ _ _ => ()
  writeToPng := fun _ => some []

/-- An image library whose decode always fails. -/
def badDecodeLib : ImageLib Unit where
  openImage := fun _ => none
  resize_exact := fun _ _ _ => ()
  writeToPng := fun _ => some []

/-- An image library whose decode succeeds and whose encode always fails. -/
def badEncodeLib : ImageLib Unit where
  openImage := fun _ => some ()
  resize_exact := fun _ _ _ => ()
  writeToPng := fun _ => none

/-- Is this event a decode (`image::open`) call? -/
def isOpenImageEvent : Event → Bool
  | .openImage _ => true
  | _ => false

/-- Is this event an encode (`write_to` PNG) call? -/
def isWriteToPngEvent : Event → Bool
  | .writeToPng => true
  | _ => false

/-- The empty storage state. -/
def emptyStore : Store :=
  { users := [], dispatchers := [], sessions := [], profile_images := [] }

/-- A plain-role user row. -/
def aliceUser : User :=
  { id := 1, username := "alice", password := "h", role := "user" }

/-- Storage holding one already-registered plain user. -/
def aliceStore : Store :=
  { users := [aliceUser], dispatchers := [], sessions := [], profile_images := [] }

/-- Storage holding one valid session for token `tok`. -/
def sessionStore : Store :=
  { users := [], dispatchers := [], sessions :=
      [{ session_token := "tok", user_id := 1, is_valid := true }],
    profile_images := [] }

/-- Storage with two profile-image references: user 1 points at a file the
image library fails to decode, user 2 at one it decodes. -/
def imgStore : Store :=
  { users := [], dispatchers := [], sessions := [],
    profile_images := [(1, "bad.png"), (2, "good.png")] }

/-- An image library that fails to decode exactly the `bad.png` path and
always fails to encode. -/
def mixedLib : ImageLib Unit where
  openImage := fun path =>
    if path = "images/user_profile/bad.png" then none else some ()
  resize_exact := fun _ _ _ => ()
  writeToPng := fun _ => none

/-! Theorems. -/

/-- Claim C3: registering with role `"dispatcher"` and an absent `area_id`
returns `BadRequest`, leaves the repository state unchanged, and performs
zero repository operations (the call trace is empty). -/
theorem register_dispatcher_missing_area_badrequest {σ : Type}
    (repo : AuthRepository σ) (hashP : String → String) (tok : String)
    (s : σ) (username password : String) :
    register_user repo hashP tok s username password "dispatcher" none =
      (.err .badRequest, s, []) := by
  simp [register_user]

/-- Claim C1 counterexample: with `noDispatcherRepo`, registering a
dispatcher-role user reaches the post-creation dispatcher re-read, which
reports absence; the operation then panics (`Outcome.crashed`) instead of
returning the `InternalServerError` error kind. -/
theorem register_dispatcher_absent_panics_cex :
    (register_user noDispatcherRepo (fun p => p) "tok" false "bob" "pw"
        "dispatcher" (some 7)).1 = Outcome.crashed ∧
    (register_user noDispatcherRepo (fun p => p) "tok" false "bob" "pw"
        "dispatcher" (some 7)).1 ≠ Outcome.err AppError.internalServerError := by
  decide

/-- Claim C1 (amended): when the Dispatcher record of a dispatcher-role
user is absent at `login_user`'s lookup by user id, login returns
`InternalServerError`; but when it is absent at `register_user`'s
post-creation re-read, registration panics on the `.unwrap()` of `None`
(`Outcome.crashed`) rather than returning any error kind. -/
theorem dispatcher_absence_login_ise_register_panics {σ : Type}
    (repo : AuthRepository σ) (verifyP : String → String → Bool)
    (hashP : String → String) (tok username password r : String) (area : Int)
    (uL uR : User) (sL sL1 sR sR1 sR2 sR3 : σ) :
    (repo.find_user_by_username sL username = .ok (some uL) →
      verifyP uL.password password = true →
      uL.role = "dispatcher" →
      repo.create_session sL uL.id tok = .ok sL1 →
      repo.find_dispatcher_by_user_id sL1 uL.id = .ok none →
      (login_user repo verifyP tok sL username password).1 =
        .err .internalServerError) ∧
    (repo.find_user_by_username sR username = .ok none →
      repo.create_user sR username (hashP password) r = .ok sR1 →
      repo.find_user_by_username sR1 username = .ok (some uR) →
      uR.role = "dispatcher" →
      repo.create_session sR1 uR.id tok = .ok sR2 →
      repo.create_dispatcher sR2 uR.id area = .ok sR3 →
      repo.find_dispatcher_by_user_id sR3 uR.id = .ok none →
      (register_user repo hashP tok sR username password r (some area)).1 =
        Outcome.crashed) := by
  constructor
  · intro h1 h2 h3 h4 h5
    simp [login_user, h1, h2, h3, h4, h5]
  · intro h1 h2 h3 h4 h5 h6 h7
    simp [register_user, h1, h2, h3, h4, h5, h6, h7]

/-- Concrete instance of the amended claim C1, at `noDispatcherRepo`. -/
theorem dispatcher_absence_login_ise_register_panics_witness :
    (login_user noDispatcherRepo (fun _ _ => true) "tok" true "bob" "pw").1 =
      Outcome.err AppError.internalServerError ∧
    (register_user noDispatcherRepo (fun p => p) "tok" false "bob" "pw"
        "dispatcher" (some 7)).1 = Outcome.crashed := by
  constructor
  · exact (dispatcher_absence_login_ise_register_panics noDispatcherRepo
      (fun _ _ => true) (fun p => p) "tok" "bob" "pw" "dispatcher" 7
      bobUser bobUser true true false true true true).1 rfl rfl rfl rfl rfl
  · exact (dispatcher_absence_login_ise_register_panics noDispatcherRepo
      (fun _ _ => true) (fun p => p) "tok" "bob" "pw" "dispatcher" 7
      bobUser bobUser true true false true true true).2 rfl rfl rfl rfl rfl rfl rfl

/-- Claim C2: when the username already exists (and the dispatcher/area
guard does not fire first), registration returns `Conflict`, the state is
unchanged, and the trace holds exactly the username lookup and the
concurrently computed (then discarded) password hash — in particular no
`createUser`, `createSession` or `createDispatcher` event. -/
theorem register_conflict_no_writes {σ : Type} (repo : AuthRepository σ)
    (hashP : String → String) (tok : String) (s : σ)
    (username password role : String) (area : Option Int) (user : User)
    (hguard : ¬(role = "dispatcher" ∧ area = none))
    (hfind : repo.find_user_by_username s username = .ok (some user)) :
    register_user repo hashP tok s username password role area =
      (.err .conflict, s,
        [.findUserByUsername username, .hashPasswordCall password]) := by
  simp [register_user, hguard, hfind]

/-- Concrete instance of claim C2: re-registering `alice` conflicts. -/
theorem register_conflict_no_writes_witness :
    ¬(("user" : String) = "dispatcher" ∧ (none : Option Int) = none) ∧
    specRepo.find_user_by_username aliceStore "alice" = .ok (some aliceUser) ∧
    register_user specRepo (fun p => p) "tok" aliceStore "alice" "pw2" "user" none =
      (.err .conflict, aliceStore,
        [.findUserByUsername "alice", .hashPasswordCall "pw2"]) :=
  ⟨by decide, rfl,
   register_conflict_no_writes specRepo (fun p => p) "tok" aliceStore
     "alice" "pw2" "user" none aliceUser (by decide) rfl⟩

/-- Claim C4: login with an unknown username and login with a known
username but a password that fails verification both return the same error
kind, `Unauthorized`. -/
theorem login_failure_unauthorized_uniform {σ : Type} (repo : AuthRepository σ)
    (verifyP : String → String → Bool) (tok : String) (sA sB : σ)
    (username password : String) (user : User) :
    (repo.find_user_by_username sA username = .ok none →
      (login_user repo verifyP tok sA username password).1 =
        .err .unauthorized) ∧
    (repo.find_user_by_username sB username = .ok (some user) →
      verifyP user.password password = false →
      (login_user repo verifyP tok sB username password).1 =
        .err .unauthorized) := by
  constructor
  · intro h
    simp [login_user, h]
  · intro h hv
    simp [login_user, h, hv]

/-- Concrete instance of claim C4: unknown `alice` on the empty store, and
`alice` with a failing password on `aliceStore`. -/
theorem login_failure_unauthorized_uniform_witness :
    (login_user specRepo (fun _ _ => false) "tok" emptyStore "alice" "pw").1 =
      Outcome.err AppError.unauthorized ∧
    (login_user specRepo (fun _ _ => false) "tok" aliceStore "alice" "pw").1 =
      Outcome.err AppError.unauthorized :=
  ⟨(login_failure_unauthorized_uniform specRepo (fun _ _ => false) "tok"
      emptyStore aliceStore "alice" "pw" aliceUser).1 rfl,
   (login_failure_unauthorized_uniform specRepo (fun _ _ => false) "tok"
      emptyStore aliceStore "alice" "pw" aliceUser).2 rfl rfl⟩

/-- Claim C5: `validate_session` propagates a repository failure on the
token lookup as that same error, and on success returns the found
session's `is_valid` flag verbatim. -/
theorem validate_session_verbatim {σ : Type} (repo : AuthRepository σ)
    (sA sB : σ) (tokA tokB : String) (e : AppError) (session : Session) :
    (repo.find_session_by_session_token sA tokA = .error e →
      (validate_session repo sA tokA).1 = .err e) ∧
    (repo.find_session_by_session_token sB tokB = .ok session →
      (validate_session repo sB tokB).1 = .ok session.is_valid) := by
  constructor
  · intro h
    simp [validate_session, h]
  · intro h
    simp [validate_session, h]

/-- Concrete instance of claim C5: a missing token propagates the
repository's `NotFound` failure; a present token returns its flag. -/
theorem validate_session_verbatim_witness :
    (validate_session specRepo emptyStore "tok").1 =
      Outcome.err AppError.notFound ∧
    (validate_session specRepo sessionStore "tok").1 = Outcome.ok true :=
  ⟨(validate_session_verbatim specRepo emptyStore sessionStore "tok" "tok"
      AppError.notFound
      { session_token := "tok", user_id := 1, is_valid := true }).1 rfl,
   (validate_session_verbatim specRepo emptyStore sessionStore "tok" "tok"
      AppError.notFound
      { session_token := "tok", user_id := 1, is_valid := true }).2 rfl⟩

/-- Claim C6: against the spec-modelled repository, a successful logout of
a token followed immediately by `validate_session` on the same token never
yields `true`: the lookup fails with the repository's not-found error. -/
theorem logout_then_validate_never_true (s : Store) (tok : String)
    (_hlogout : (logout_user specRepo s tok).1 = .ok ()) :
    (validate_session specRepo (logout_user specRepo s tok).2.1 tok).1 ≠
      Outcome.ok true := by
  have hnone : List.find? (fun (_ : Session) => false) s.sessions = none := by
    rw [List.find?_eq_none]
    intro x hx
    simp
  simp [logout_user, validate_session, specRepo, hnone]

/-- Concrete instance of claim C6: the token is valid before logout, and
validating it right after the logout does not yield `true`. -/
theorem logout_then_validate_never_true_witness :
    (logout_user specRepo sessionStore "tok").1 = Outcome.ok () ∧
    (validate_session specRepo
        (logout_user specRepo sessionStore "tok").2.1 "tok").1 ≠
      Outcome.ok true :=
  ⟨by decide, logout_then_validate_never_true sessionStore "tok" (by decide)⟩

/-- Claim C7: a successful registration returns a `LoginResponseDto` whose
role field is copied from the created user's row, with `dispatcher_id` and
`area_id` both present exactly when that role is `"dispatcher"`, and both
absent for any other role. -/
theorem register_success_dispatcher_fields {σ : Type} (repo : AuthRepository σ)
    (hashP : String → String) (tok : String) (s s1 : σ)
    (username password role : String) (area : Option Int)
    (dto : LoginResponseDto) (tr : List Event)
    (hsuccess : register_user repo hashP tok s username password role area =
      (.ok dto, s1, tr)) :
    (dto.role = "dispatcher" →
      dto.dispatcher_id.isSome = true ∧ dto.area_id.isSome = true) ∧
    (dto.role ≠ "dispatcher" → dto.dispatcher_id = none ∧ dto.area_id = none) := by
  unfold register_user at hsuccess
  split at hsuccess
  · simp at hsuccess
  · split at hsuccess
    · simp at hsuccess
    · split at hsuccess
      · simp at hsuccess
      · split at hsuccess
        · simp at hsuccess
        · split at hsuccess
          · simp at hsuccess
          · simp at hsuccess
          · split at hsuccess
            · simp at hsuccess
            · split at hsuccess
              · split at hsuccess
                · simp at hsuccess
                · split at hsuccess
                  · simp at hsuccess
                  · split at hsuccess
                    · simp at hsuccess
                    · simp at hsuccess
                    · simp at hsuccess
                      obtain ⟨hdto, -, -⟩ := hsuccess
                      subst hdto
                      simp_all
              · simp at hsuccess
                obtain ⟨hdto, -, -⟩ := hsuccess
                subst hdto
                simp_all

/-- Concrete instances of claim C7: a dispatcher registration carries both
dispatcher fields, a plain-user registration carries neither. -/
theorem register_success_dispatcher_fields_witness :
    (register_user specRepo (fun p => p) "tok" emptyStore "bob" "pw"
        "dispatcher" (some 7) =
      (Outcome.ok { user_id := 1, username := "bob", session_token := "tok",
                    role := "dispatcher", dispatcher_id := some 1,
                    area_id := some 7 },
       { users := [{ id := 1, username := "bob", password := "pw",
                     role := "dispatcher" }],
         dispatchers := [{ id := 1, user_id := 1, area_id := 7 }],
         sessions := [{ session_token := "tok", user_id := 1, is_valid := true }],
         profile_images := [] },
       [Event.findUserByUsername "bob", Event.hashPasswordCall "pw",
        Event.createUser "bob" "pw" "dispatcher", Event.findUserByUsername "bob",
        Event.createSession 1 "tok", Event.createDispatcher 1 7,
        Event.findDispatcherByUserId 1])) ∧
    ((("dispatcher" : String) = "dispatcher" →
        (some (1 : Int)).isSome = true ∧ (some (7 : Int)).isSome = true) ∧
     (("dispatcher" : String) ≠ "dispatcher" →
        (some (1 : Int)) = none ∧ (some (7 : Int)) = none)) :=
  ⟨by decide,
   register_success_dispatcher_fields specRepo (fun p => p) "tok" emptyStore
     { users := [{ id := 1, username := "bob", password := "pw",
                   role := "dispatcher" }],
       dispatchers := [{ id := 1, user_id := 1, area_id := 7 }],
       sessions := [{ session_token := "tok", user_id := 1, is_valid := true }],
       profile_images := [] }
     "bob" "pw" "dispatcher" (some 7)
     { user_id := 1, username := "bob", session_token := "tok",
       role := "dispatcher", dispatcher_id := some 1, area_id := some 7 }
     [Event.findUserByUsername "bob", Event.hashPasswordCall "pw",
      Event.createUser "bob" "pw" "dispatcher", Event.findUserByUsername "bob",
      Event.createSession 1 "tok", Event.createDispatcher 1 7,
      Event.findDispatcherByUserId 1] (by decide)⟩

/-- Claim C8: in `get_resized_profile_image_byte`, a filename lookup that
succeeds with no filename returns `NotFound`; a decode failure and an
encode failure both return `InternalServerError`; and the operation is
never retried — any trace holds at most one decode and one encode call. -/
theorem profile_image_error_mapping {σ Img : Type} (repo : AuthRepository σ)
    (lib : ImageLib Img) (sA sB sC : σ) (uidA uidB uidC w h : Int)
    (nameB nameC : String) (img : Img) :
    (repo.find_profile_image_name_by_user_id sA uidA = .ok none →
      (get_resized_profile_image_byte repo lib sA uidA w h).1 =
        .err .notFound) ∧
    (repo.find_profile_image_name_by_user_id sB uidB = .ok (some nameB) →
      lib.openImage ("images/user_profile/" ++ nameB) = none →
      (get_resized_profile_image_byte repo lib sB uidB w h).1 =
        .err .internalServerError) ∧
    (repo.find_profile_image_name_by_user_id sC uidC = .ok (some nameC) →
      lib.openImage ("images/user_profile/" ++ nameC) = some img →
      lib.writeToPng (lib.resize_exact img (i32AsU32 w) (i32AsU32 h)) = none →
      (get_resized_profile_image_byte repo lib sC uidC w h).1 =
        .err .internalServerError) ∧
    (get_resized_profile_image_byte repo lib sA uidA w h).2.countP
        isOpenImageEvent ≤ 1 ∧
    (get_resized_profile_image_byte repo lib sA uidA w h).2.countP
        isWriteToPngEvent ≤ 1 := by
  refine ⟨?_, ?_, ?_, ?_, ?_⟩
  · intro hfind
    simp [get_resized_profile_image_byte, hfind]
  · intro hfind hopen
    simp [get_resized_profile_image_byte, hfind, hopen]
  · intro hfind hopen hwrite
    simp [get_resized_profile_image_byte, hfind, hopen, hwrite]
  · unfold get_resized_profile_image_byte
    split
    · split
      · simp [List.countP_cons, isOpenImageEvent]
      · split
        · simp [List.countP_cons, isOpenImageEvent]
        · simp [List.countP_cons, isOpenImageEvent]
    · simp [List.countP_cons, isOpenImageEvent]
    · simp [List.countP_cons, isOpenImageEvent]
  · unfold get_resized_profile_image_byte
    split
    · split
      · simp [List.countP_cons, isWriteToPngEvent]
      · split
        · simp [List.countP_cons, isWriteToPngEvent]
        · simp [List.countP_cons, isWriteToPngEvent]
    · simp [List.countP_cons, isWriteToPngEvent]
    · simp [List.countP_cons, isWriteToPngEvent]

/-- Concrete instances of claim C8 on `imgStore` and `mixedLib`. -/
theorem profile_image_error_mapping_witness :
    (get_resized_profile_image_byte specRepo mixedLib emptyStore 1 10 10).1 =
      Outcome.err AppError.notFound ∧
    (get_resized_profile_image_byte specRepo mixedLib imgStore 1 10 10).1 =
      Outcome.err AppError.internalServerError ∧
    (get_resized_profile_image_byte specRepo mixedLib imgStore 2 10 10).1 =
      Outcome.err AppError.internalServerError ∧
    (get_resized_profile_image_byte specRepo mixedLib emptyStore 1 10 10).2.countP
        isOpenImageEvent ≤ 1 ∧
    (get_resized_profile_image_byte specRepo mixedLib emptyStore 1 10 10).2.countP
        isWriteToPngEvent ≤ 1 := by
  have h := profile_image_error_mapping specRepo mixedLib emptyStore imgStore
    imgStore 1 1 2 10 10 "bad.png" "good.png" ()
  exact ⟨h.1 rfl, h.2.1 rfl (by decide), h.2.2.1 rfl (by decide) rfl,
    h.2.2.2.1, h.2.2.2.2⟩

/-- Claim C9: when the filename lookup itself fails with a storage error,
`get_resized_profile_image_byte` returns `NotFound` — indistinguishable
from a genuinely missing image reference. -/
theorem profile_image_storage_error_notfound {σ Img : Type}
    (repo : AuthRepository σ) (lib : ImageLib Img) (s : σ) (uid w h : Int)
    (e : AppError)
    (hfind : repo.find_profile_image_name_by_user_id s uid = .error e) :
    (get_resized_profile_image_byte repo lib s uid w h).1 =
      Outcome.err AppError.notFound := by
  simp [get_resized_profile_image_byte, hfind]

/-- Concrete instance of claim C9: a repository whose lookup fails with
`InternalServerError` still surfaces as `NotFound`. -/
theorem profile_image_storage_error_notfound_witness :
    failRepo.find_profile_image_name_by_user_id () 1 =
      Except.error AppError.internalServerError ∧
    (get_resized_profile_image_byte failRepo unitImageLib () 1 10 10).1 =
      Outcome.err AppError.notFound :=
  ⟨rfl, profile_image_storage_error_notfound failRepo unitImageLib () 1 10 10
    AppError.internalServerError rfl⟩

/-- Claim C10: negative requested dimensions are not rejected: once the
filename lookup and the decode succeed, `resize_exact` is invoked with the
two's-complement wrapping `i32AsU32` of each requested dimension, and the
call never returns `BadRequest`. -/
theorem profile_image_negative_dims_wrap {σ Img : Type}
    (repo : AuthRepository σ) (lib : ImageLib Img) (s : σ)
    (uid w h : Int) (name : String) (img : Img)
    (_hneg : w < 0 ∨ h < 0)
    (hfind : repo.find_profile_image_name_by_user_id s uid = .ok (some name))
    (hopen : lib.openImage ("images/user_profile/" ++ name) = some img) :
    Event.resizeExact (i32AsU32 w) (i32AsU32 h) ∈
      (get_resized_profile_image_byte repo lib s uid w h).2 ∧
    (get_resized_profile_image_byte repo lib s uid w h).1 ≠
      Outcome.err AppError.badRequest := by
  rcases hw : lib.writeToPng (lib.resize_exact img (i32AsU32 w) (i32AsU32 h))
    with _ | buf
  · simp [get_resized_profile_image_byte, hfind, hopen, hw]
  · simp [get_resized_profile_image_byte, hfind, hopen, hw]

/-- Concrete instance of claim C10: requesting a `(-1) × (-1)` resize
invokes `resize_exact` with `4294967295 × 4294967295` and is not rejected
with `BadRequest`. -/
theorem profile_image_negative_dims_wrap_witness :
    ((-1 : Int) < 0 ∨ (-1 : Int) < 0) ∧
    (Event.resizeExact 4294967295 4294967295 ∈
      (get_resized_profile_image_byte specRepo mixedLib imgStore 2 (-1) (-1)).2 ∧
     (get_resized_profile_image_byte specRepo mixedLib imgStore 2 (-1) (-1)).1 ≠
      Outcome.err AppError.badRequest) :=
  ⟨Or.inl (by decide),
   profile_image_negative_dims_wrap specRepo mixedLib imgStore 2 (-1) (-1)
     "good.png" () (Or.inl (by decide)) rfl (by decide)⟩

end AuthSpec
